import Mathlib

/-!
Shallow embedding of `src/compliant-api.py` (ShareSpace-APIs): a single Flask
endpoint `POST /check_compliance` that combines a static keyword denylist with
a call to an external multimodal classifier (Gemini).

External collaborators (the Flask runtime, the Gemini SDK, and Python's
`json.loads`) are modelled at their interfaces, following the spec's stated
scope: the classifier is an oracle `List PromptPart → ClassifierOutcome`
passed in as a parameter, and `json.loads` is a parameter
`String → Option Json` (`none` = `json.JSONDecodeError`).  Observable side
effects (temporary-file lifecycle, whether the external call was made) are
returned explicitly in a `World` record.
-/

namespace ShareSpace

/-- A parsed JSON value, the codomain of the `json.loads` model and the type
of every response body produced by `jsonify`. -/
inductive Json where
  | obj (pairs : List (String × Json))
  | arr (items : List Json)
  | str (text : String)
  | num (value : Int)
  | bool (flag : Bool)
  | null

mutual

/-- Structural equality test on `Json`; written by hand because the derive
handler rejects the nested `List` positions of `arr` and `obj`. -/
def Json.eqv : Json → Json → Bool
  | .obj ps, .obj qs => Json.eqvPairs ps qs
  | .arr ps, .arr qs => Json.eqvItems ps qs
  | .str p, .str q => p == q
  | .num p, .num q => p == q
  | .bool p, .bool q => p == q
  | .null, .null => true
  | _, _ => false

/-- `Json.eqv`, pointwise over array items. -/
def Json.eqvItems : List Json → List Json → Bool
  | p :: ps, q :: qs => Json.eqv p q && Json.eqvItems ps qs
  | [], [] => true
  | _, _ => false

/-- `Json.eqv`, pointwise over object pairs (keys compared with `==`). -/
def Json.eqvPairs : List (String × Json) → List (String × Json) → Bool
  | (j, p) :: ps, (k, q) :: qs => j == k && (Json.eqv p q && Json.eqvPairs ps qs)
  | [], [] => true
  | _, _ => false

end

mutual

def Json.eqv_sound : ∀ {a b : Json}, Json.eqv a b = true → a = b
  | .obj ps, .obj qs, h =>
    congrArg Json.obj (Json.eqvPairs_sound (by simpa [Json.eqv] using h))
  | .arr ps, .arr qs, h =>
    congrArg Json.arr (Json.eqvItems_sound (by simpa [Json.eqv] using h))
  | .str p, .str q, h => by
    have hpq : p = q := by simpa [Json.eqv] using h
    exact congrArg Json.str hpq
  | .num p, .num q, h => by
    have hpq : p = q := by simpa [Json.eqv] using h
    exact congrArg Json.num hpq
  | .bool p, .bool q, h => by
    have hpq : p = q := by simpa [Json.eqv] using h
    exact congrArg Json.bool hpq
  | .null, .null, _ => rfl

def Json.eqvItems_sound : ∀ {ps qs : List Json},
    Json.eqvItems ps qs = true → ps = qs
  | p :: ps, q :: qs, h => by
    have hsplit : Json.eqv p q = true ∧ Json.eqvItems ps qs = true := by
      simpa [Json.eqvItems, Bool.and_eq_true] using h
    exact congrArg₂ List.cons (Json.eqv_sound hsplit.1)
      (Json.eqvItems_sound hsplit.2)
  | [], [], _ => rfl

def Json.eqvPairs_sound : ∀ {ps qs : List (String × Json)},
    Json.eqvPairs ps qs = true → ps = qs
  | (j, p) :: ps, (k, q) :: qs, h => by
    have hsplit : j = k ∧ Json.eqv p q = true ∧ Json.eqvPairs ps qs = true := by
      simpa [Json.eqvPairs, Bool.and_eq_true] using h
    have hval : p = q := Json.eqv_sound hsplit.2.1
    exact congrArg₂ List.cons (by rw [hsplit.1, hval])
      (Json.eqvPairs_sound hsplit.2.2)
  | [], [], _ => rfl

end

mutual

def Json.eqv_self : ∀ a : Json, Json.eqv a a = true
  | .obj ps => by simpa [Json.eqv] using Json.eqvPairs_self ps
  | .arr ps => by simpa [Json.eqv] using Json.eqvItems_self ps
  | .str p => by simp [Json.eqv]
  | .num p => by simp [Json.eqv]
  | .bool p => by simp [Json.eqv]
  | .null => rfl

def Json.eqvItems_self : ∀ ps : List Json, Json.eqvItems ps ps = true
  | p :: ps => by
    simp [Json.eqvItems, Json.eqv_self p, Json.eqvItems_self ps]
  | [] => rfl

def Json.eqvPairs_self : ∀ ps : List (String × Json),
    Json.eqvPairs ps ps = true
  | (j, p) :: ps => by
    simp [Json.eqvPairs, Json.eqv_self p, Json.eqvPairs_self ps]
  | [] => rfl

end

instance : DecidableEq Json := fun a b =>
  decidable_of_iff (Json.eqv a b = true)
    ⟨Json.eqv_sound, fun h => h ▸ Json.eqv_self a⟩

/-- The uploaded `photo` part of the multipart form (`werkzeug` file storage):
only its declared MIME type and filename reach the handler's logic. -/
structure FileUpload where
  filename : String
  mimetype : String
deriving DecidableEq

/-- One entry of `response.candidates[0].safety_ratings`: a category enum name
and a probability enum name, flattened to their `.name` strings as the handler
reads them. -/
structure SafetyRating where
  category : String
  probability : String
deriving DecidableEq

/-- One element of the prompt list built at line 90 of the source: either a
literal text part or the uploaded-file reference `myfile`. -/
inductive PromptPart where
  | text (s : String)
  | fileRef
deriving DecidableEq

/-- Outcome of the external classification call (upload + `generate_content` +
reading the response object), per the spec's classifier interface:
`answered` = normal completion with response text, `safety` = safety-filter
termination with its ratings, `failed` = any exception thrown by the external
calls or response handling. -/
inductive ClassifierOutcome where
  | answered (text : String)
  | safety (ratings : List SafetyRating)
  | failed
deriving DecidableEq

/-- The HTTP response: a JSON body and a status code (Flask's default for
`return jsonify(...)` is 200; `return jsonify(...), 400` sets 400). -/
structure HttpResponse where
  body : Json
  status : Nat
deriving DecidableEq

/-- Observable side effects of one request: whether the per-request temporary
file was ever created, whether it still exists when the handler returns, and
whether the external classifier call (upload + model call) was started. -/
structure World where
  tempFileCreated : Bool
  tempFileExists : Bool
  classifierInvoked : Bool
deriving DecidableEq

/-- Python's rendering of an optional form field inside an f-string:
`request.form.get` returns `None` when the field is absent, and
`f"{None}"` is the four-character string `"None"`. -/
def pyStr : Option String → String
  | none => "None"
  | some s => s

/-- Python truthiness of an optional string (`not description`): absent or
empty is falsy. -/
def pyTruthy : Option String → Bool
  | none => false
  | some s => !s.isEmpty

/-- Python's `str.lower()`: ASCII letters are lowered (`Char.toLower` maps
`A`-`Z` to `a`-`z` and leaves everything else unchanged), character by
character. -/
def pyLower (s : String) : String :=
  String.mk (s.data.map Char.toLower)

/-- The ASCII whitespace characters Python's `str.strip()` removes. -/
def pyWsChars : List Char := [' ', '\t', '\n', '\r', '\x0b', '\x0c']

/-- Python's `str.strip()` whitespace test. -/
def isPyWs (c : Char) : Bool :=
  pyWsChars.contains c

/-- Python's `str.strip()`: drop whitespace from both ends. -/
def pyStrip (s : String) : String :=
  String.mk (((s.data.dropWhile isPyWs).reverse.dropWhile isPyWs).reverse)

/-- Does `needle` occur as a contiguous sublist of `haystack`? -/
def listIsInfix (needle haystack : List Char) : Bool :=
  needle.isPrefixOf haystack ||
    match haystack with
    | [] => false
    | _ :: rest => listIsInfix needle rest

/-- `word in normalized_string` for strings: substring containment. -/
def strContains (haystack needle : String) : Bool :=
  listIsInfix needle.data haystack.data

/-- The module-level `blacklist_words` list, verbatim from lines 24-38. -/
def blacklist_words : List String :=
  ["alcohol", "weed", "marijuana", "cannabis", "vodka", "whiskey", "beer",
   "tobacco", "cigarettes", "vape", "e-cigarettes", "smoking", "heroin",
   "cocaine", "meth", "opioids", "ecstasy", "narcotics", "gambling", "casino",
   "betting", "poker", "lottery", "nudity", "porn", "NSFW",
   "prostitution", "sex", "fetish", "lingerie", "stripper",
   "naked", "drugs", "hashish", "amphetamine",
   "explosives", "terrorism", "extremism", "illegal", "sutta", "daaru",
   "maal", "charsi", "ganja", "nashe", "chirkut", "tharki", "kamina",
   "behenchod", "madarchod", "chutiya", "harami", "bhosad", "bakchodi",
   "gaand", "suar", "hijra", "bastard", "rape", "molest", "dalali", "nanga",
   "lauda", "kidnap", "dacoit", "firangi", "dhamki", "suicide", "murders",
   "lootera", "darinda", "lafanga", "sadakchap", "gunda", "nashedi", "bawali",
   "opium", "hookah"]

/-- `contains_blacklisted_word` (lines 41-55): lowercase the input, return
true if any entry of `blacklist_words` occurs in it as a substring.  Note the
entries themselves are NOT lowercased: the uppercase entry `"NSFW"` is
compared as written against the lowercased input. -/
def contains_blacklisted_word (input_string : String) : Bool :=
  let normalized_string := pyLower input_string
  blacklist_words.any (fun word => strContains normalized_string word)

/-- The combined text fed to the denylist check, `f"{name} {description}"`
(line 67). -/
def combinedText (name description : Option String) : String :=
  pyStr name ++ " " ++ pyStr description

/-- The generic fail-closed reason string used at lines 69 and 130 (note the
source spells it "Term of Service", singular). -/
def genericReason : String := "Does not comply with our Term of Service"

/-- Body `{"compliant": False, "reason": <genericReason>}` returned on a
denylist hit (line 69) and on any swallowed exception (line 130). -/
def fallbackBody : Json :=
  Json.obj [("compliant", Json.bool false), ("reason", Json.str genericReason)]

/-- Body of the 400 response at line 73. -/
def requiredErrorBody : Json :=
  Json.obj [("error", Json.str "Image and description are required")]

/-- Body of the 400 response at line 78. -/
def unsupportedErrorBody : Json :=
  Json.obj [("error", Json.str "Unsupported image format")]

/-- Body returned at line 127 when the model text is not valid JSON. -/
def invalidJsonBody : Json :=
  Json.obj [("error", Json.str "Invalid JSON response from the model")]

/-- The allow-list of image MIME types (line 76). -/
def allowedMimeTypes : List String :=
  ["image/png", "image/jpeg", "image/webp", "image/heic", "image/heif"]

/-- The prompt list built at line 90:
`["Analyze the following ...", "\n\n", myfile, "\n\n",
  f"Description: {name} {description}"]`. -/
def promptParts (name description : Option String) : List PromptPart :=
  [PromptPart.text "Analyze the following product description and image for compliance with platform regulations(given in system prompt):",
   PromptPart.text "\n\n",
   PromptPart.fileRef,
   PromptPart.text "\n\n",
   PromptPart.text ("Description: " ++ pyStr name ++ " " ++ pyStr description)]

/-- The reason string built at line 112:
`', '.join(f"{rating.category.name[14:]} ({rating.probability.name})" ...)`.
`[14:]` drops the first 14 characters (the length of `"HARM_CATEGORY_"`). -/
def safetyReason (ratings : List SafetyRating) : String :=
  String.intercalate ", "
    (ratings.map (fun rating => rating.category.drop 14 ++ " (" ++ rating.probability ++ ")"))

/-- `World` of a request that never reached the classification stage. -/
def worldUntouched : World :=
  { tempFileCreated := false, tempFileExists := false, classifierInvoked := false }

/-- `World` after the classification stage: the temporary file was created
(line 81), the external call was started (lines 87-99), and the `finally`
block (line 133) removed the file on every exit path. -/
def worldClassified : World :=
  { tempFileCreated := true, tempFileExists := false, classifierInvoked := true }

/-- The `check_compliance` handler (lines 58-133), parameterized over the
external classifier (`classify`, covering `genai.upload_file` +
`model.generate_content` + reading the response: `.failed` stands for any
exception caught by the bare `except:` at line 129) and over Python's
`json.loads` (`jsonLoads`; `none` = `JSONDecodeError`). -/
def check_compliance (classify : List PromptPart → ClassifierOutcome)
    (jsonLoads : String → Option Json)
    (photo : Option FileUpload) (name description : Option String) :
    HttpResponse × World :=
  if contains_blacklisted_word (combinedText name description) then
    ({ body := fallbackBody, status := 200 }, worldUntouched)
  else
    match photo with
    | none => ({ body := requiredErrorBody, status := 400 }, worldUntouched)
    | some image =>
      if !pyTruthy description then
        ({ body := requiredErrorBody, status := 400 }, worldUntouched)
      else if !(allowedMimeTypes.contains image.mimetype) then
        ({ body := unsupportedErrorBody, status := 400 }, worldUntouched)
      else
        match classify (promptParts name description) with
        | ClassifierOutcome.failed =>
          ({ body := fallbackBody, status := 200 }, worldClassified)
        | ClassifierOutcome.safety ratings =>
          let non_negligible_ratings :=
            ratings.filter (fun rating => rating.probability != "NEGLIGIBLE")
          match non_negligible_ratings with
          | [] =>
            ({ body := Json.obj [("compliant", Json.bool true)], status := 200 },
             worldClassified)
          | _ :: _ =>
            ({ body := Json.obj [("compliant", Json.bool false),
                 ("reason", Json.str (safetyReason non_negligible_ratings))],
               status := 200 }, worldClassified)
        | ClassifierOutcome.answered text =>
          match jsonLoads (pyStrip text) with
          | some response_data => ({ body := response_data, status := 200 }, worldClassified)
          | none => ({ body := invalidJsonBody, status := 200 }, worldClassified)

/-!
A small executable JSON parser, used to instantiate the `jsonLoads` parameter
in witnesses.  It accepts a fragment of JSON (null, booleans, integers,
escape-free strings, arrays, objects) and is conservative: it returns `none`
on any input outside that fragment, so every `some` it produces agrees with
Python's `json.loads` and every concrete `none` used in a witness is an input
`json.loads` also rejects.
-/

/-- The four characters `json.loads` skips between tokens. -/
def jsonWsChars : List Char := [' ', '\t', '\n', '\r']

/-- JSON insignificant whitespace. -/
def isJsonWs (c : Char) : Bool :=
  jsonWsChars.contains c

/-- Skip leading JSON whitespace. -/
def dropWs : List Char → List Char
  | [] => []
  | c :: cs => if isJsonWs c then dropWs cs else c :: cs

/-- Parse the body of a string literal (after the opening quote, up to the
closing quote); escape sequences are not supported (returns `none`). -/
def parseStringBody : List Char → List Char → Option (String × List Char)
  | _, [] => none
  | acc, c :: cs =>
    if c == '"' then some (String.mk acc.reverse, cs)
    else if c == '\\' then none
    else parseStringBody (c :: acc) cs

/-- Split off a maximal run of leading decimal digits. -/
def takeDigits : List Char → List Char × List Char
  | [] => ([], [])
  | c :: cs =>
    if c.isDigit then
      let (ds, rest) := takeDigits cs
      (c :: ds, rest)
    else ([], c :: cs)

/-- Value of a digit run. -/
def digitsToNat (ds : List Char) : Nat :=
  ds.foldl (fun acc c => 10 * acc + (c.toNat - 48)) 0

/-- After a digit run, a fraction or exponent marker puts the number outside
the supported fragment. -/
def numberContinues : List Char → Bool
  | '.' :: _ => true
  | 'e' :: _ => true
  | 'E' :: _ => true
  | _ => false

mutual

/-- Parse one JSON value; `fuel` bounds the recursion depth. -/
def parseValue : Nat → List Char → Option (Json × List Char)
  | 0, _ => none
  | fuel + 1, cs =>
    match dropWs cs with
    | 'n' :: 'u' :: 'l' :: 'l' :: rest => some (Json.null, rest)
    | 't' :: 'r' :: 'u' :: 'e' :: rest => some (Json.bool true, rest)
    | 'f' :: 'a' :: 'l' :: 's' :: 'e' :: rest => some (Json.bool false, rest)
    | '"' :: rest =>
      match parseStringBody [] rest with
      | some (s, rest') => some (Json.str s, rest')
      | none => none
    | '[' :: rest =>
      match dropWs rest with
      | ']' :: rest' => some (Json.arr [], rest')
      | rest' =>
        match parseElems fuel rest' with
        | some (vs, rest'') => some (Json.arr vs, rest'')
        | none => none
    | '{' :: rest =>
      match dropWs rest with
      | '}' :: rest' => some (Json.obj [], rest')
      | rest' =>
        match parseFields fuel rest' with
        | some (kvs, rest'') => some (Json.obj kvs, rest'')
        | none => none
    | '-' :: rest =>
      match takeDigits rest with
      | ([], _) => none
      | (ds, rest') =>
        if numberContinues rest' then none
        else some (Json.num (-(digitsToNat ds : Int)), rest')
    | c :: rest =>
      if c.isDigit then
        match takeDigits (c :: rest) with
        | (ds, rest') =>
          if numberContinues rest' then none
          else some (Json.num (digitsToNat ds : Int), rest')
      else none
    | [] => none

/-- Parse the comma-separated elements of a non-empty array, consuming the
closing bracket. -/
def parseElems : Nat → List Char → Option (List Json × List Char)
  | 0, _ => none
  | fuel + 1, cs =>
    match parseValue fuel cs with
    | none => none
    | some (v, rest) =>
      match dropWs rest with
      | ',' :: rest' =>
        match parseElems fuel rest' with
        | some (vs, rest'') => some (v :: vs, rest'')
        | none => none
      | ']' :: rest' => some ([v], rest')
      | _ => none

/-- Parse the comma-separated fields of a non-empty object, consuming the
closing brace. -/
def parseFields : Nat → List Char → Option (List (String × Json) × List Char)
  | 0, _ => none
  | fuel + 1, cs =>
    match dropWs cs with
    | '"' :: rest =>
      match parseStringBody [] rest with
      | none => none
      | some (k, rest') =>
        match dropWs rest' with
        | ':' :: rest'' =>
          match parseValue fuel rest'' with
          | none => none
          | some (v, rest₃) =>
            match dropWs rest₃ with
            | ',' :: rest₄ =>
              match parseFields fuel rest₄ with
              | some (kvs, rest₅) => some ((k, v) :: kvs, rest₅)
              | none => none
            | '}' :: rest₄ => some ([(k, v)], rest₄)
            | _ => none
        | _ => none
    | _ => none

end

/-- Executable stand-in for Python's `json.loads` on the supported fragment:
parses one value and requires only whitespace to remain. -/
def miniJsonLoads (s : String) : Option Json :=
  match parseValue (s.length + 1) s.toList with
  | some (v, rest) => if (dropWs rest).isEmpty then some v else none
  | none => none

/-!  Concrete fixtures used by witnesses and counterexamples. -/

/-- A PNG upload passing the MIME allow-list. -/
def pngUpload : FileUpload := { filename := "item.png", mimetype := "image/png" }

/-- A GIF upload, outside the MIME allow-list. -/
def gifUpload : FileUpload := { filename := "item.gif", mimetype := "image/gif" }

/-- A classifier whose call always throws (network/upload failure). -/
def alwaysFails : List PromptPart → ClassifierOutcome :=
  fun _ => ClassifierOutcome.failed

/-- A classifier that answers a fixed text. -/
def answers (t : String) : List PromptPart → ClassifierOutcome :=
  fun _ => ClassifierOutcome.answered t

/-- A classifier that terminates with fixed safety ratings. -/
def safetyBlocks (rs : List SafetyRating) : List PromptPart → ClassifierOutcome :=
  fun _ => ClassifierOutcome.safety rs

/-- A classifier whose outcome depends on the prompt it receives: it fails on
the exact prompt a name-less request for description "socks" produces, and
reports an empty safety-rating set on every other prompt. -/
def promptSensitive : List PromptPart → ClassifierOutcome :=
  fun parts =>
    if parts = promptParts none (some "socks") then ClassifierOutcome.failed
    else ClassifierOutcome.safety []

/-- The three response shapes of the spec's `ComplianceResult` union, with the
non-emptiness requirement on `reason`/`message`: `Compliant` is
`{"compliant": true}`, `NonCompliant` is
`{"compliant": false, "reason": r}` with `r` non-empty, and `RequestError` is
`{"error": m}` with `m` non-empty. -/
def wellFormedBody : Json → Bool
  | Json.obj [("compliant", Json.bool true)] => true
  | Json.obj [("compliant", Json.bool false), ("reason", Json.str r)] => !r.isEmpty
  | Json.obj [("error", Json.str m)] => !m.isEmpty
  | _ => false

/-!  Branch lemmas for `check_compliance`, shared by the claim theorems. -/

theorem check_denylist_hit (classify : List PromptPart → ClassifierOutcome)
    (jsonLoads : String → Option Json) (photo : Option FileUpload)
    (name description : Option String)
    (h : contains_blacklisted_word (combinedText name description) = true) :
    check_compliance classify jsonLoads photo name description =
      ({ body := fallbackBody, status := 200 }, worldUntouched) := by
  simp [check_compliance, h]

theorem check_missing (classify : List PromptPart → ClassifierOutcome)
    (jsonLoads : String → Option Json) (photo : Option FileUpload)
    (name description : Option String)
    (hbl : contains_blacklisted_word (combinedText name description) = false)
    (hmiss : photo = none ∨ pyTruthy description = false) :
    check_compliance classify jsonLoads photo name description =
      ({ body := requiredErrorBody, status := 400 }, worldUntouched) := by
  rcases hmiss with hmiss | hmiss <;> cases photo <;>
    simp_all [check_compliance]

theorem check_bad_mime (classify : List PromptPart → ClassifierOutcome)
    (jsonLoads : String → Option Json) (image : FileUpload)
    (name description : Option String)
    (hbl : contains_blacklisted_word (combinedText name description) = false)
    (hdesc : pyTruthy description = true)
    (hmime : allowedMimeTypes.contains image.mimetype = false) :
    check_compliance classify jsonLoads (some image) name description =
      ({ body := unsupportedErrorBody, status := 400 }, worldUntouched) := by
  have hmem : image.mimetype ∉ allowedMimeTypes := by simpa using hmime
  simp [check_compliance, hbl, hdesc, hmem]

theorem check_failed (classify : List PromptPart → ClassifierOutcome)
    (jsonLoads : String → Option Json) (image : FileUpload)
    (name description : Option String)
    (hbl : contains_blacklisted_word (combinedText name description) = false)
    (hdesc : pyTruthy description = true)
    (hmime : allowedMimeTypes.contains image.mimetype = true)
    (hout : classify (promptParts name description) = ClassifierOutcome.failed) :
    check_compliance classify jsonLoads (some image) name description =
      ({ body := fallbackBody, status := 200 }, worldClassified) := by
  have hmem : image.mimetype ∈ allowedMimeTypes := by simpa using hmime
  simp [check_compliance, hbl, hdesc, hmem, hout]

theorem check_safety (classify : List PromptPart → ClassifierOutcome)
    (jsonLoads : String → Option Json) (image : FileUpload)
    (name description : Option String) (ratings : List SafetyRating)
    (hbl : contains_blacklisted_word (combinedText name description) = false)
    (hdesc : pyTruthy description = true)
    (hmime : allowedMimeTypes.contains image.mimetype = true)
    (hout : classify (promptParts name description) =
      ClassifierOutcome.safety ratings) :
    check_compliance classify jsonLoads (some image) name description =
      (match ratings.filter (fun rating => rating.probability != "NEGLIGIBLE") with
       | [] => ({ body := Json.obj [("compliant", Json.bool true)], status := 200 },
                worldClassified)
       | flagged => ({ body := Json.obj [("compliant", Json.bool false),
                         ("reason", Json.str (safetyReason flagged))],
                       status := 200 }, worldClassified)) := by
  have hmem : image.mimetype ∈ allowedMimeTypes := by simpa using hmime
  cases hf : ratings.filter (fun rating => rating.probability != "NEGLIGIBLE") with
  | nil => simp [check_compliance, hbl, hdesc, hmem, hout, hf]
  | cons r rest => simp [check_compliance, hbl, hdesc, hmem, hout, hf]

theorem check_answered_parse (classify : List PromptPart → ClassifierOutcome)
    (jsonLoads : String → Option Json) (image : FileUpload)
    (name description : Option String) (text : String) (v : Json)
    (hbl : contains_blacklisted_word (combinedText name description) = false)
    (hdesc : pyTruthy description = true)
    (hmime : allowedMimeTypes.contains image.mimetype = true)
    (hout : classify (promptParts name description) =
      ClassifierOutcome.answered text)
    (hparse : jsonLoads (pyStrip text) = some v) :
    check_compliance classify jsonLoads (some image) name description =
      ({ body := v, status := 200 }, worldClassified) := by
  have hmem : image.mimetype ∈ allowedMimeTypes := by simpa using hmime
  simp [check_compliance, hbl, hdesc, hmem, hout, hparse]

theorem check_answered_noparse (classify : List PromptPart → ClassifierOutcome)
    (jsonLoads : String → Option Json) (image : FileUpload)
    (name description : Option String) (text : String)
    (hbl : contains_blacklisted_word (combinedText name description) = false)
    (hdesc : pyTruthy description = true)
    (hmime : allowedMimeTypes.contains image.mimetype = true)
    (hout : classify (promptParts name description) =
      ClassifierOutcome.answered text)
    (hparse : jsonLoads (pyStrip text) = none) :
    check_compliance classify jsonLoads (some image) name description =
      ({ body := invalidJsonBody, status := 200 }, worldClassified) := by
  have hmem : image.mimetype ∈ allowedMimeTypes := by simpa using hmime
  simp [check_compliance, hbl, hdesc, hmem, hout, hparse]

/-!  The reason string synthesized on the safety path is never empty. -/

theorem intercalate_go_length (s : String) :
    ∀ (l : List String) (acc : String),
      acc.length ≤ (String.intercalate.go acc s l).length
  | [], acc => by simp [String.intercalate.go]
  | a :: as, acc => by
    have h := intercalate_go_length s as (acc ++ s ++ a)
    have h₂ : acc.length ≤ (acc ++ s ++ a).length := by
      simp only [String.length_append]
      omega
    calc acc.length ≤ (acc ++ s ++ a).length := h₂
      _ ≤ (String.intercalate.go (acc ++ s ++ a) s as).length := h
      _ = (String.intercalate.go acc s (a :: as)).length := by
        simp [String.intercalate.go]

theorem length_le_intercalate (s a : String) (l : List String) :
    a.length ≤ (String.intercalate s (a :: l)).length := by
  simpa [String.intercalate] using intercalate_go_length s l a

theorem safetyReason_isEmpty_false (r : SafetyRating)
    (rest : List SafetyRating) :
    (safetyReason (r :: rest)).isEmpty = false := by
  have hhd : 0 < (r.category.drop 14 ++ " (" ++ r.probability ++ ")").length := by
    have hparen : (" (" : String).length = 2 := rfl
    simp only [String.length_append]
    omega
  have hle := length_le_intercalate ", "
    (r.category.drop 14 ++ " (" ++ r.probability ++ ")")
    (rest.map (fun rating =>
      rating.category.drop 14 ++ " (" ++ rating.probability ++ ")"))
  have hpos : 0 < (safetyReason (r :: rest)).length := by
    have : safetyReason (r :: rest) = String.intercalate ", "
        ((r.category.drop 14 ++ " (" ++ r.probability ++ ")") ::
          rest.map (fun rating =>
            rating.category.drop 14 ++ " (" ++ rating.probability ++ ")")) := by
      simp [safetyReason]
    rw [this]
    exact lt_of_lt_of_le hhd hle
  cases hemp : (safetyReason (r :: rest)).isEmpty with
  | false => rfl
  | true =>
    have : safetyReason (r :: rest) = "" := (String.isEmpty_iff _).1 hemp
    rw [this] at hpos
    simp at hpos

/-- Adequacy of the executable substring check: `listIsInfix` decides
`List.IsInfix`, i.e. the model of Python's `in` operator is genuine substring
containment. -/
theorem listIsInfix_iff (needle : List Char) :
    ∀ haystack, listIsInfix needle haystack = true ↔ needle <:+: haystack
  | [] => by
    simp [listIsInfix]
  | a :: rest => by
    rw [listIsInfix]
    simp [List.infix_cons_iff, listIsInfix_iff needle rest]

/-!  Claim theorems. -/

/-- Claim C1, amended: for every request whose combined
`f"{name} {description}"` text, lowercased, contains a `blacklist_words`
entry as literally written (the entries are not lowercased, so the uppercase
entry `"NSFW"` can never match the lowercased text), the handler returns
`{"compliant": false, "reason": "Does not comply with our Term of Service"}`
with HTTP 200 and the external classifier is never invoked (no temporary file
is created, no upload and no model call happen). -/
theorem C1_denylist_short_circuit
    (classify : List PromptPart → ClassifierOutcome)
    (jsonLoads : String → Option Json) (photo : Option FileUpload)
    (name description : Option String)
    (hmatch : contains_blacklisted_word (combinedText name description) = true) :
    check_compliance classify jsonLoads photo name description =
      ({ body := Json.obj [("compliant", Json.bool false),
           ("reason", Json.str "Does not comply with our Term of Service")],
         status := 200 },
       { tempFileCreated := false, tempFileExists := false,
         classifierInvoked := false }) := by
  simpa [fallbackBody, genericReason, worldUntouched] using
    check_denylist_hit classify jsonLoads photo name description hmatch

/-- Witness for C1: description "vodka" (name absent) trips the denylist and
short-circuits. -/
theorem C1_denylist_short_circuit_witness :
    contains_blacklisted_word (combinedText none (some "vodka")) = true ∧
    check_compliance alwaysFails miniJsonLoads (some pngUpload) none
        (some "vodka") =
      ({ body := Json.obj [("compliant", Json.bool false),
           ("reason", Json.str "Does not comply with our Term of Service")],
         status := 200 },
       { tempFileCreated := false, tempFileExists := false,
         classifierInvoked := false }) :=
  ⟨by decide, C1_denylist_short_circuit alwaysFails miniJsonLoads
    (some pngUpload) none (some "vodka") (by decide)⟩

/-- Counterexample to C1 as stated: (a) the request text "None Nsfw" contains
the denylist entry "NSFW" case-insensitively (its lowercasing contains the
lowercased entry), yet the classifier IS invoked, because the match is not
case-insensitive on the side of the entries; (b) on a genuine denylist hit the
reason string is "Does not comply with our Term of Service", not the claimed
"Does not comply with our Terms of Service". -/
theorem C1_counterexample :
    strContains (pyLower (combinedText none (some "Nsfw"))) (pyLower "NSFW") =
        true ∧
    (check_compliance alwaysFails miniJsonLoads (some pngUpload) none
        (some "Nsfw")).2.classifierInvoked = true ∧
    (check_compliance alwaysFails miniJsonLoads (some pngUpload) none
        (some "vodka")).1.body ≠
      Json.obj [("compliant", Json.bool false),
        ("reason", Json.str "Does not comply with our Terms of Service")] :=
  ⟨by decide, by decide, by decide⟩

/-- Claim C2, amended: any exception thrown during upload, classification or
response handling after validation passes is swallowed and mapped to the same
response as a denylist hit — both paths produce the identical JSON body
`{"compliant": false, "reason": "Does not comply with our Term of Service"}`
(the source spells it "Term", not "Terms") — returned with HTTP 200, never a
5xx. -/
theorem C2_exception_fail_closed
    (classify classify₂ : List PromptPart → ClassifierOutcome)
    (jsonLoads jsonLoads₂ : String → Option Json) (image : FileUpload)
    (photo₂ : Option FileUpload) (name description name₂ description₂ : Option String)
    (hbl : contains_blacklisted_word (combinedText name description) = false)
    (hdesc : pyTruthy description = true)
    (hmime : allowedMimeTypes.contains image.mimetype = true)
    (hfail : classify (promptParts name description) = ClassifierOutcome.failed)
    (hhit : contains_blacklisted_word (combinedText name₂ description₂) = true) :
    (check_compliance classify jsonLoads (some image) name description).1 =
      { body := Json.obj [("compliant", Json.bool false),
          ("reason", Json.str "Does not comply with our Term of Service")],
        status := 200 } ∧
    (check_compliance classify jsonLoads (some image) name description).1.body =
      (check_compliance classify₂ jsonLoads₂ photo₂ name₂ description₂).1.body := by
  rw [check_failed classify jsonLoads image name description hbl hdesc hmime hfail,
    check_denylist_hit classify₂ jsonLoads₂ photo₂ name₂ description₂ hhit]
  exact ⟨by simp [fallbackBody, genericReason], rfl⟩

/-- Witness for C2: an upload/transport failure on a clean request produces
exactly the denylist-hit body, with status 200. -/
theorem C2_exception_fail_closed_witness :
    contains_blacklisted_word (combinedText (some "Mug") (some "a blue mug")) =
        false ∧
    pyTruthy (some "a blue mug") = true ∧
    allowedMimeTypes.contains pngUpload.mimetype = true ∧
    alwaysFails (promptParts (some "Mug") (some "a blue mug")) =
        ClassifierOutcome.failed ∧
    contains_blacklisted_word (combinedText none (some "vodka")) = true ∧
    ((check_compliance alwaysFails miniJsonLoads (some pngUpload) (some "Mug")
        (some "a blue mug")).1 =
      { body := Json.obj [("compliant", Json.bool false),
          ("reason", Json.str "Does not comply with our Term of Service")],
        status := 200 } ∧
     (check_compliance alwaysFails miniJsonLoads (some pngUpload) (some "Mug")
        (some "a blue mug")).1.body =
       (check_compliance alwaysFails miniJsonLoads (some pngUpload) none
          (some "vodka")).1.body) :=
  ⟨by decide, by decide, by decide, by decide, by decide,
   C2_exception_fail_closed alwaysFails alwaysFails miniJsonLoads miniJsonLoads
     pngUpload (some pngUpload) (some "Mug") (some "a blue mug") none
     (some "vodka") (by decide) (by decide) (by decide) (by decide) (by decide)⟩

/-- Counterexample to C2 as stated: the swallowed-exception body is not the
claimed byte string — its reason reads "Term of Service", not
"Terms of Service". -/
theorem C2_counterexample :
    (check_compliance alwaysFails miniJsonLoads (some pngUpload) (some "Mug")
        (some "a blue mug")).1.body ≠
      Json.obj [("compliant", Json.bool false),
        ("reason", Json.str "Does not comply with our Terms of Service")] := by
  decide

/-- Claim C3: on a safety-filter termination the handler keeps exactly the
ratings whose probability is not "NEGLIGIBLE"; if none remain it returns
`{"compliant": true}`, and otherwise `{"compliant": false}` with the
comma-joined list of `"<category> (<probability>)"` entries, the fixed-length
`"HARM_CATEGORY_"` prefix stripped from each category name. -/
theorem C3_safety_filter_outcome
    (classify : List PromptPart → ClassifierOutcome)
    (jsonLoads : String → Option Json) (image : FileUpload)
    (name description : Option String) (ratings : List SafetyRating)
    (hbl : contains_blacklisted_word (combinedText name description) = false)
    (hdesc : pyTruthy description = true)
    (hmime : allowedMimeTypes.contains image.mimetype = true)
    (hout : classify (promptParts name description) =
      ClassifierOutcome.safety ratings) :
    (ratings.filter (fun rating => rating.probability != "NEGLIGIBLE") = [] →
      check_compliance classify jsonLoads (some image) name description =
        ({ body := Json.obj [("compliant", Json.bool true)], status := 200 },
         worldClassified)) ∧
    (∀ r rest,
      ratings.filter (fun rating => rating.probability != "NEGLIGIBLE") =
          r :: rest →
      check_compliance classify jsonLoads (some image) name description =
        ({ body := Json.obj [("compliant", Json.bool false),
             ("reason", Json.str (String.intercalate ", "
               ((r :: rest).map (fun rating =>
                 rating.category.drop ("HARM_CATEGORY_".length) ++ " (" ++
                   rating.probability ++ ")"))))],
           status := 200 }, worldClassified)) := by
  have h := check_safety classify jsonLoads image name description ratings
    hbl hdesc hmime hout
  constructor
  · intro hf
    rw [h, hf]
  · intro r rest hf
    rw [h, hf]
    have hlen : ("HARM_CATEGORY_".length : Nat) = 14 := by decide
    simp [safetyReason, hlen]

/-- Witness for C3: one rating `HARM_CATEGORY_X / HIGH` yields reason
"X (HIGH)"; an all-negligible rating set yields `{"compliant": true}`. -/
theorem C3_safety_filter_outcome_witness :
    contains_blacklisted_word (combinedText (some "Socks") (some "warm socks")) =
        false ∧
    pyTruthy (some "warm socks") = true ∧
    allowedMimeTypes.contains pngUpload.mimetype = true ∧
    check_compliance
        (safetyBlocks [{ category := "HARM_CATEGORY_X", probability := "HIGH" }])
        miniJsonLoads (some pngUpload) (some "Socks") (some "warm socks") =
      ({ body := Json.obj [("compliant", Json.bool false),
           ("reason", Json.str "X (HIGH)")], status := 200 },
       worldClassified) ∧
    check_compliance
        (safetyBlocks
          [{ category := "HARM_CATEGORY_X", probability := "NEGLIGIBLE" }])
        miniJsonLoads (some pngUpload) (some "Socks") (some "warm socks") =
      ({ body := Json.obj [("compliant", Json.bool true)], status := 200 },
       worldClassified) := by
  refine ⟨by decide, by decide, by decide, ?_, ?_⟩
  · have h := (C3_safety_filter_outcome
      (safetyBlocks [{ category := "HARM_CATEGORY_X", probability := "HIGH" }])
      miniJsonLoads pngUpload (some "Socks") (some "warm socks")
      [{ category := "HARM_CATEGORY_X", probability := "HIGH" }]
      (by decide) (by decide) (by decide) rfl).2
      { category := "HARM_CATEGORY_X", probability := "HIGH" } [] (by decide)
    rw [h]
    decide
  · have h := (C3_safety_filter_outcome
      (safetyBlocks
        [{ category := "HARM_CATEGORY_X", probability := "NEGLIGIBLE" }])
      miniJsonLoads pngUpload (some "Socks") (some "warm socks")
      [{ category := "HARM_CATEGORY_X", probability := "NEGLIGIBLE" }]
      (by decide) (by decide) (by decide) rfl).1 (by decide)
    rw [h]

/-- Claim C4: past the denylist check, a missing photo or a falsy description
yields HTTP 400 `{"error": "Image and description are required"}`; with both
present, a MIME type outside the allow-list yields HTTP 400
`{"error": "Unsupported image format"}`. Presence is checked before format:
the first conjunct applies whatever the MIME type is. -/
theorem C4_validation_errors
    (classify : List PromptPart → ClassifierOutcome)
    (jsonLoads : String → Option Json) (photo : Option FileUpload)
    (name description : Option String)
    (hbl : contains_blacklisted_word (combinedText name description) = false) :
    ((photo = none ∨ pyTruthy description = false) →
      check_compliance classify jsonLoads photo name description =
        ({ body := Json.obj
             [("error", Json.str "Image and description are required")],
           status := 400 }, worldUntouched)) ∧
    (∀ image, photo = some image → pyTruthy description = true →
      allowedMimeTypes.contains image.mimetype = false →
      check_compliance classify jsonLoads photo name description =
        ({ body := Json.obj [("error", Json.str "Unsupported image format")],
           status := 400 }, worldUntouched)) := by
  constructor
  · intro hmiss
    simpa [requiredErrorBody] using
      check_missing classify jsonLoads photo name description hbl hmiss
  · intro image hp hdesc hmime
    subst hp
    simpa [unsupportedErrorBody] using
      check_bad_mime classify jsonLoads image name description hbl hdesc hmime

/-- Witness for C4: a photo-less request, a present-but-bad-format request,
and a request failing both presence and format (which gets the "required"
error). -/
theorem C4_validation_errors_witness :
    contains_blacklisted_word (combinedText none (some "socks")) = false ∧
    check_compliance alwaysFails miniJsonLoads none none (some "socks") =
      ({ body := Json.obj
           [("error", Json.str "Image and description are required")],
         status := 400 }, worldUntouched) ∧
    check_compliance alwaysFails miniJsonLoads (some gifUpload) none
        (some "socks") =
      ({ body := Json.obj [("error", Json.str "Unsupported image format")],
         status := 400 }, worldUntouched) ∧
    check_compliance alwaysFails miniJsonLoads (some gifUpload) none none =
      ({ body := Json.obj
           [("error", Json.str "Image and description are required")],
         status := 400 }, worldUntouched) :=
  ⟨by decide,
   (C4_validation_errors alwaysFails miniJsonLoads none none (some "socks")
     (by decide)).1 (Or.inl rfl),
   (C4_validation_errors alwaysFails miniJsonLoads (some gifUpload) none
     (some "socks") (by decide)).2 gifUpload rfl (by decide) (by decide),
   (C4_validation_errors alwaysFails miniJsonLoads (some gifUpload) none none
     (by decide)).1 (Or.inr rfl)⟩

/-- Claim C5: for every request that reaches the classification stage (the
denylist misses and validation passes), the per-request temporary file was
created and no longer exists when the handler returns — for every classifier
outcome: normal answer with parsable JSON, normal answer with unparsable
text, safety-filter termination, and a thrown exception. -/
theorem C5_temp_file_cleanup
    (classify : List PromptPart → ClassifierOutcome)
    (jsonLoads : String → Option Json) (image : FileUpload)
    (name description : Option String)
    (hbl : contains_blacklisted_word (combinedText name description) = false)
    (hdesc : pyTruthy description = true)
    (hmime : allowedMimeTypes.contains image.mimetype = true) :
    (check_compliance classify jsonLoads (some image) name
        description).2.tempFileCreated = true ∧
    (check_compliance classify jsonLoads (some image) name
        description).2.tempFileExists = false := by
  cases hout : classify (promptParts name description) with
  | failed =>
    rw [check_failed classify jsonLoads image name description hbl hdesc hmime
      hout]
    exact ⟨rfl, rfl⟩
  | safety ratings =>
    rw [check_safety classify jsonLoads image name description ratings hbl
      hdesc hmime hout]
    cases ratings.filter (fun rating => rating.probability != "NEGLIGIBLE") with
    | nil => exact ⟨rfl, rfl⟩
    | cons r rest => exact ⟨rfl, rfl⟩
  | answered text =>
    cases hparse : jsonLoads (pyStrip text) with
    | some v =>
      rw [check_answered_parse classify jsonLoads image name description text v
        hbl hdesc hmime hout hparse]
      exact ⟨rfl, rfl⟩
    | none =>
      rw [check_answered_noparse classify jsonLoads image name description text
        hbl hdesc hmime hout hparse]
      exact ⟨rfl, rfl⟩

/-- Witness for C5: a request classified with unparsable model text; the
temporary file was created and is gone. -/
theorem C5_temp_file_cleanup_witness :
    contains_blacklisted_word (combinedText (some "Socks") (some "warm socks")) =
        false ∧
    pyTruthy (some "warm socks") = true ∧
    allowedMimeTypes.contains pngUpload.mimetype = true ∧
    ((check_compliance (answers "I cannot assist with that") miniJsonLoads
        (some pngUpload) (some "Socks") (some "warm socks")).2.tempFileCreated =
        true ∧
     (check_compliance (answers "I cannot assist with that") miniJsonLoads
        (some pngUpload) (some "Socks") (some "warm socks")).2.tempFileExists =
        false) :=
  ⟨by decide, by decide, by decide,
   C5_temp_file_cleanup (answers "I cannot assist with that") miniJsonLoads
     pngUpload (some "Socks") (some "warm socks") (by decide) (by decide)
     (by decide)⟩

/-- Claim C6: when the classifier completes normally but its stripped response
text does not parse as JSON, the handler returns
`{"error": "Invalid JSON response from the model"}` with the default success
status 200 (no crash, no 5xx). -/
theorem C6_invalid_model_json
    (classify : List PromptPart → ClassifierOutcome)
    (jsonLoads : String → Option Json) (image : FileUpload)
    (name description : Option String) (text : String)
    (hbl : contains_blacklisted_word (combinedText name description) = false)
    (hdesc : pyTruthy description = true)
    (hmime : allowedMimeTypes.contains image.mimetype = true)
    (hout : classify (promptParts name description) =
      ClassifierOutcome.answered text)
    (hparse : jsonLoads (pyStrip text) = none) :
    check_compliance classify jsonLoads (some image) name description =
      ({ body := Json.obj
           [("error", Json.str "Invalid JSON response from the model")],
         status := 200 }, worldClassified) := by
  simpa [invalidJsonBody] using
    check_answered_noparse classify jsonLoads image name description text hbl
      hdesc hmime hout hparse

/-- Witness for C6: the model answers prose, not JSON. -/
theorem C6_invalid_model_json_witness :
    contains_blacklisted_word (combinedText (some "Socks") (some "warm socks")) =
        false ∧
    pyTruthy (some "warm socks") = true ∧
    allowedMimeTypes.contains pngUpload.mimetype = true ∧
    answers "I cannot assist with that"
        (promptParts (some "Socks") (some "warm socks")) =
      ClassifierOutcome.answered "I cannot assist with that" ∧
    miniJsonLoads (pyStrip "I cannot assist with that") = none ∧
    check_compliance (answers "I cannot assist with that") miniJsonLoads
        (some pngUpload) (some "Socks") (some "warm socks") =
      ({ body := Json.obj
           [("error", Json.str "Invalid JSON response from the model")],
         status := 200 }, worldClassified) :=
  ⟨by decide, by decide, by decide, by decide, by decide,
   C6_invalid_model_json (answers "I cannot assist with that") miniJsonLoads
     pngUpload (some "Socks") (some "warm socks") "I cannot assist with that"
     (by decide) (by decide) (by decide) rfl (by decide)⟩

/-- Claim C7, amended: when the multipart `name` field is absent,
`request.form.get` returns Python `None`, which f-string interpolation renders
as the four-character string "None": the denylist text and the classifier
prompt are built exactly as if `name` had been supplied as "None" (not as the
empty string), so a request with no name behaves identically to the same
request with name set to "None". -/
theorem C7_missing_name_is_None
    (classify : List PromptPart → ClassifierOutcome)
    (jsonLoads : String → Option Json) (photo : Option FileUpload)
    (description : Option String) :
    check_compliance classify jsonLoads photo none description =
      check_compliance classify jsonLoads photo (some "None") description := rfl

/-- Counterexample to C7 as stated: the prompt built for an absent name
differs from the prompt built for the empty-string name, and a classifier
sensitive to that difference produces different responses for the two
requests. -/
theorem C7_counterexample :
    promptParts none (some "socks") ≠ promptParts (some "") (some "socks") ∧
    (check_compliance promptSensitive miniJsonLoads (some pngUpload) none
        (some "socks")).1 ≠
      (check_compliance promptSensitive miniJsonLoads (some pngUpload)
        (some "") (some "socks")).1 :=
  ⟨by decide, by decide⟩

/-- Claim C8, amended: every response the handler synthesizes itself —
denylist hit, validation errors, safety-filter outcome, JSON-parse failure,
swallowed exception — is one of the three outcome shapes (`Compliant`,
`NonCompliant`, `RequestError`) with a non-empty `reason`/`error` string; the
one exception is the normal-completion parse-success path, which returns the
parsed model JSON verbatim and is not constrained to those shapes. -/
theorem C8_response_shape_invariant
    (classify : List PromptPart → ClassifierOutcome)
    (jsonLoads : String → Option Json) (photo : Option FileUpload)
    (name description : Option String) :
    wellFormedBody
        (check_compliance classify jsonLoads photo name description).1.body =
      true ∨
    ∃ text v,
      classify (promptParts name description) = ClassifierOutcome.answered text ∧
      jsonLoads (pyStrip text) = some v ∧
      (check_compliance classify jsonLoads photo name description).1 =
        { body := v, status := 200 } := by
  cases hbl : contains_blacklisted_word (combinedText name description) with
  | true =>
    left
    rw [check_denylist_hit classify jsonLoads photo name description hbl]
    decide
  | false =>
    cases photo with
    | none =>
      left
      rw [check_missing classify jsonLoads none name description hbl
        (Or.inl rfl)]
      decide
    | some image =>
      cases hdesc : pyTruthy description with
      | false =>
        left
        rw [check_missing classify jsonLoads (some image) name description hbl
          (Or.inr hdesc)]
        decide
      | true =>
        cases hmime : allowedMimeTypes.contains image.mimetype with
        | false =>
          left
          rw [check_bad_mime classify jsonLoads image name description hbl
            hdesc hmime]
          decide
        | true =>
          cases hout : classify (promptParts name description) with
          | failed =>
            left
            rw [check_failed classify jsonLoads image name description hbl
              hdesc hmime hout]
            decide
          | safety ratings =>
            left
            rw [check_safety classify jsonLoads image name description ratings
              hbl hdesc hmime hout]
            cases hf : ratings.filter
                (fun rating => rating.probability != "NEGLIGIBLE") with
            | nil => decide
            | cons r rest =>
              simp [wellFormedBody, safetyReason_isEmpty_false r rest]
          | answered text =>
            cases hparse : jsonLoads (pyStrip text) with
            | some v =>
              right
              exact ⟨text, v, rfl, hparse,
                by rw [check_answered_parse classify jsonLoads image name
                  description text v hbl hdesc hmime hout hparse]⟩
            | none =>
              left
              rw [check_answered_noparse classify jsonLoads image name
                description text hbl hdesc hmime hout hparse]
              decide

/-- Counterexample to C8 as stated: the handler returns the parsed model JSON
verbatim, so it can produce `{"compliant": false, "reason": ""}` — a response
with a present but empty reason — and even the body `42`, which is none of the
three outcome shapes. -/
theorem C8_counterexample :
    (check_compliance (answers "\x7b\"compliant\": false, \"reason\": \"\"\x7d")
        miniJsonLoads (some pngUpload) (some "Mug") (some "a blue mug")).1.body =
      Json.obj [("compliant", Json.bool false), ("reason", Json.str "")] ∧
    wellFormedBody
        (check_compliance (answers "\x7b\"compliant\": false, \"reason\": \"\"\x7d")
          miniJsonLoads (some pngUpload) (some "Mug")
          (some "a blue mug")).1.body = false ∧
    (check_compliance (answers "42") miniJsonLoads (some pngUpload)
        (some "Mug") (some "a blue mug")).1.body = Json.num 42 ∧
    wellFormedBody
        (check_compliance (answers "42") miniJsonLoads (some pngUpload)
          (some "Mug") (some "a blue mug")).1.body = false :=
  ⟨by decide, by decide, by decide, by decide⟩

/-- Claim C9: when the classifier completes normally and its stripped text
parses as JSON, the parsed value — whatever its shape — is returned verbatim
as the HTTP 200 response body, with no schema validation. -/
theorem C9_no_schema_validation
    (classify : List PromptPart → ClassifierOutcome)
    (jsonLoads : String → Option Json) (image : FileUpload)
    (name description : Option String) (text : String) (v : Json)
    (hbl : contains_blacklisted_word (combinedText name description) = false)
    (hdesc : pyTruthy description = true)
    (hmime : allowedMimeTypes.contains image.mimetype = true)
    (hout : classify (promptParts name description) =
      ClassifierOutcome.answered text)
    (hparse : jsonLoads (pyStrip text) = some v) :
    check_compliance classify jsonLoads (some image) name description =
      ({ body := v, status := 200 }, worldClassified) :=
  check_answered_parse classify jsonLoads image name description text v hbl
    hdesc hmime hout hparse

/-- Witness for C9: a JSON array and an object with keys unrelated to
`{compliant, reason}` both pass through verbatim with status 200. -/
theorem C9_no_schema_validation_witness :
    contains_blacklisted_word (combinedText (some "Socks") (some "warm socks")) =
        false ∧
    pyTruthy (some "warm socks") = true ∧
    allowedMimeTypes.contains pngUpload.mimetype = true ∧
    miniJsonLoads (pyStrip "[1, 2]") = some (Json.arr [Json.num 1, Json.num 2]) ∧
    check_compliance (answers "[1, 2]") miniJsonLoads (some pngUpload)
        (some "Socks") (some "warm socks") =
      ({ body := Json.arr [Json.num 1, Json.num 2], status := 200 },
       worldClassified) ∧
    check_compliance (answers "\x7b\"foo\": null\x7d") miniJsonLoads (some pngUpload)
        (some "Socks") (some "warm socks") =
      ({ body := Json.obj [("foo", Json.null)], status := 200 },
       worldClassified) :=
  ⟨by decide, by decide, by decide, by decide,
   C9_no_schema_validation (answers "[1, 2]") miniJsonLoads pngUpload
     (some "Socks") (some "warm socks") "[1, 2]"
     (Json.arr [Json.num 1, Json.num 2]) (by decide) (by decide) (by decide)
     rfl (by decide),
   C9_no_schema_validation (answers "\x7b\"foo\": null\x7d") miniJsonLoads pngUpload
     (some "Socks") (some "warm socks") "\x7b\"foo\": null\x7d"
     (Json.obj [("foo", Json.null)]) (by decide) (by decide) (by decide) rfl
     (by decide)⟩

/-- Claim C10: a description field supplied as the empty string is falsy in
Python and is treated like a missing description: absent a denylist match the
handler returns HTTP 400 `{"error": "Image and description are required"}`,
even when the photo and the field itself are present. -/
theorem C10_empty_description_required
    (classify : List PromptPart → ClassifierOutcome)
    (jsonLoads : String → Option Json) (photo : Option FileUpload)
    (name : Option String)
    (hbl : contains_blacklisted_word (combinedText name (some "")) = false) :
    check_compliance classify jsonLoads photo name (some "") =
      ({ body := Json.obj
           [("error", Json.str "Image and description are required")],
         status := 400 }, worldUntouched) := by
  simpa [requiredErrorBody] using
    check_missing classify jsonLoads photo name (some "") hbl (Or.inr rfl)

/-- Witness for C10: photo present, name present, description supplied empty. -/
theorem C10_empty_description_required_witness :
    contains_blacklisted_word (combinedText (some "Socks") (some "")) = false ∧
    check_compliance alwaysFails miniJsonLoads (some pngUpload) (some "Socks")
        (some "") =
      ({ body := Json.obj
           [("error", Json.str "Image and description are required")],
         status := 400 }, worldUntouched) :=
  ⟨by decide,
   C10_empty_description_required alwaysFails miniJsonLoads (some pngUpload)
     (some "Socks") (by decide)⟩

end ShareSpace
